import Mathlib

/-
Shallow embedding of the request/response correlation and event-dispatch
engine of py_sc_async_client (src/src/sc_async_client/session.py), for
checking the natural-language specification against the code.

State of the process-wide `_ScClientSession` singleton is embedded as a
record; each session function becomes a Lean function from the state (and
an explicit environment describing what the transport does) to a new
state, a trace of observable actions, and a result.  Callbacks (the
configured reconnect, error and subscription callbacks) are identified by
opaque numerals; invoking one is recorded as a trace action.
-/

namespace ScAsyncClient

/-- Modelled from the spec: the file models/sc_addr.py is absent from src;
per the spec an Address is an opaque non-negative integer handle naming a
graph element, and ScAddr wraps that integer. -/
structure ScAddr where
  value : Nat
deriving DecidableEq, Repr

/-- Embeds models/sc_event_subscription.py: ScEventSubscription dataclass
with fields id (default 0), event_type (default None) and callback
(default None).  The event kind and the callback closure are modelled as
opaque numerals. -/
structure ScEventSubscription where
  id : Nat := 0
  event_type : Option Nat := none
  callback : Option Nat := none
deriving DecidableEq, Repr

/-- State of an asyncio.Future held in pending_futures: pending, or done
(resolved by set_result, or cancelled by a wait_for timeout; the Python
future reports done() in either case). -/
inductive FutureState where
  | pending
  | done
deriving DecidableEq, Repr

/-- Python exceptions that the embedded dictionary and future operations
can raise. -/
inductive PyErr where
  | keyError
  | invalidState
deriving DecidableEq, Repr

/-- Kinds of error passed to the configured error handler by session.py:
PayloadMaxSizeError, ConnectionAbortedError, and the WebSocketException
caught inside the connect task. -/
inductive ErrKind where
  | payloadMaxSize
  | connectionAborted
  | webSocketError
deriving DecidableEq, Repr

/-- Observable actions of the session, in the order they are performed. -/
inductive Action where
  | registerSlot (id : Nat)
  | writeBytes (attempt : Nat)
  | errorHandler (e : ErrKind)
  | reconnect (retry : Nat)
  | sleepDelay
  | resolveSlot (id : Nat)
  | invokeCallback (subId : Nat) (cb : Nat) (args : List ScAddr)
  | connectAttempt (url : String)
  | postReconnect
  | closeTransport
deriving DecidableEq, Repr

/-- Lookup in an embedded Python dict with Nat keys. -/
def slookup {α : Type} : List (Nat × α) → Nat → Option α
  | [], _ => none
  | (k, v) :: rest, key => if k = key then some v else slookup rest key

/-- Insertion into an embedded Python dict: overwrites an existing key,
otherwise appends. -/
def sinsert {α : Type} (m : List (Nat × α)) (key : Nat) (v : α) : List (Nat × α) :=
  if (slookup m key).isSome then
    m.map (fun kv => if kv.1 = key then (key, v) else kv)
  else
    m ++ [(key, v)]

/-- Removal of a key from an embedded Python dict (dict.pop / del). -/
def serase {α : Type} : List (Nat × α) → Nat → List (Nat × α)
  | [], _ => []
  | kv :: rest, key =>
    if kv.1 = key then serase rest key else kv :: serase rest key

/-- Embeds the mutable class attributes of _ScClientSession that the
claims are about: url, is_open, command_id, connection (an opaque handle
when present), pending_futures and event_subscriptions_dict. -/
structure SessionState where
  url : Option String := none
  isOpen : Bool := false
  commandId : Nat := 0
  connection : Option Nat := none
  pendingFutures : List (Nat × FutureState) := []
  eventSubscriptions : List (Nat × ScEventSubscription) := []
deriving DecidableEq, Repr

/-- Configuration values read by session.py.  Modelled from the spec for
the numeric defaults: the constants module (constants/numeric.py) is not
under src, and the spec describes a fixed configured payload byte ceiling
and a configured retry count; hasReconnectCallback embeds the truthiness
test of _ScClientSession.reconnect_callback (non-None by default). -/
structure Config where
  maxPayloadSize : Nat
  reconnectRetries : Nat
  hasReconnectCallback : Bool := true
deriving DecidableEq, Repr

/-- Embeds is_connected (session.py lines 99-100). -/
def is_connected (st : SessionState) : Bool :=
  st.isOpen

/-- Embeds asyncio.Future.set_result: raises InvalidStateError when the
future is already done. -/
def set_result : FutureState → Except PyErr FutureState
  | FutureState.pending => Except.ok FutureState.done
  | FutureState.done => Except.error PyErr.invalidState

/-- Embeds _emit_callback (session.py lines 89-92): look up the event id
in event_subscriptions_dict; when an entry exists and its callback is set,
invoke the callback with one ScAddr built from each payload element. -/
def emit_callback (st : SessionState) (event_id : Nat) (elems : List Nat) :
    SessionState × List Action :=
  match slookup st.eventSubscriptions event_id with
  | none => (st, [])
  | some ev =>
    match ev.callback with
    | none => (st, [])
    | some cb => (st, [Action.invokeCallback event_id cb (elems.map ScAddr.mk)])

/-- Inbound wire envelope after json.loads: id, event flag, and (for
events) the payload list of addresses. -/
structure Response where
  id : Nat
  event : Bool := false
  payload : List Nat := []
deriving DecidableEq, Repr

/-- Embeds _on_message (session.py lines 74-87): an event envelope is
dispatched to _emit_callback; otherwise the pending future for the id is
popped and, when present and not yet done, resolved with set_result. -/
def on_message (st : SessionState) (resp : Response) :
    Except PyErr (SessionState × List Action) :=
  if resp.event then
    Except.ok (emit_callback st resp.id resp.payload)
  else
    match slookup st.pendingFutures resp.id with
    | none => Except.ok (st, [])
    | some fut =>
      let st2 := { st with pendingFutures := serase st.pendingFutures resp.id }
      if fut = FutureState.done then
        Except.ok (st2, [])
      else
        match set_result fut with
        | Except.ok _ => Except.ok (st2, [Action.resolveSlot resp.id])
        | Except.error e => Except.error e

/-- Embeds the read loop of establish_connection (session.py lines
144-145): inbound messages are handed to _on_message in arrival order; an
escaping exception ends the loop (the finally block then flips the open
flag). -/
def read_loop : SessionState → List Response → SessionState × List Action
  | st, [] => (st, [])
  | st, r :: rest =>
    match on_message st r with
    | Except.error _ => ({ st with isOpen := false }, [])
    | Except.ok (st2, acts) =>
      let res := read_loop st2 rest
      (res.1, acts ++ res.2)

/-- Result of one transport write attempt inside _send_message: the write
succeeds, raises websockets.ConnectionClosed, or there is no connection
(session.py line 170 raises a plain Exception, which nothing catches). -/
inductive AttemptResult where
  | ok
  | closed
  | noConn
deriving DecidableEq, Repr

/-- How the _send_message recursion ended. -/
inductive LoopExit where
  | sent
  | exhausted
  | raisedNoConn
deriving DecidableEq, Repr

/-- Embeds _send_message (session.py lines 167-186).  att gives the result
of the write attempt numbered retry (the reconnect callback may restore
the connection between attempts).  On ConnectionClosed, when a reconnect
callback is set and retry < retries: sleep the retry delay (skipped when
retry = 0), invoke the reconnect callback with retry, and recurse with
retry + 1; otherwise report ConnectionAbortedError to the error handler. -/
def sendLoop (hasReconnect : Bool) (att : Nat → AttemptResult)
    (retries retry : Nat) : List Action × LoopExit :=
  match att retry with
  | AttemptResult.noConn => ([], LoopExit.raisedNoConn)
  | AttemptResult.ok => ([Action.writeBytes retry], LoopExit.sent)
  | AttemptResult.closed =>
    if h : hasReconnect = true ∧ retry < retries then
      let rest := sendLoop hasReconnect att retries (retry + 1)
      ((if 0 < retry then [Action.sleepDelay] else []) ++
        Action.reconnect retry :: rest.1, rest.2)
    else
      ([Action.errorHandler ErrKind.connectionAborted], LoopExit.exhausted)
termination_by retries - retry
decreasing_by
  omega

/-- Result of a send_message call: a correlated response, None (oversize
rejection or timeout), or an uncaught exception from the missing
connection. -/
inductive SendResult where
  | response (r : Response)
  | noResponse
  | raised
deriving DecidableEq, Repr

/-- Outcome of one embedded send_message call: final session state, trace
of actions, result, and the request identifier the call allocated. -/
structure SendOutcome where
  state : SessionState
  trace : List Action
  result : SendResult
  allocatedId : Nat
deriving DecidableEq, Repr

/-- Embeds send_message (session.py lines 189-229).  lenData stands for
len(json.dumps(envelope).encode("utf-8")); att describes the transport
write attempts; arrival is what awaiting the future yields (some response
resolved by the read loop, or none on a wait_for timeout).  The counter is
incremented under the lock, the envelope is size-checked, the pending slot
is registered, _send_message runs, and the future is awaited: on arrival
the read loop has already popped the slot; on timeout the slot stays with
a cancelled (done) future and ConnectionAbortedError goes to the error
handler. -/
def send_message (cfg : Config) (st : SessionState) (lenData : Nat)
    (att : Nat → AttemptResult) (arrival : Option Response) : SendOutcome :=
  let command_id := st.commandId + 1
  let st1 := { st with commandId := command_id }
  if lenData > cfg.maxPayloadSize then
    { state := st1
      trace := [Action.errorHandler ErrKind.payloadMaxSize]
      result := SendResult.noResponse
      allocatedId := command_id }
  else
    let st2 := { st1 with
      pendingFutures := sinsert st1.pendingFutures command_id FutureState.pending }
    let sent := sendLoop cfg.hasReconnectCallback att cfg.reconnectRetries 0
    match sent.2 with
    | LoopExit.raisedNoConn =>
      { state := st2
        trace := Action.registerSlot command_id :: sent.1
        result := SendResult.raised
        allocatedId := command_id }
    | _ =>
      match arrival with
      | some r =>
        { state := { st2 with
            pendingFutures := serase st2.pendingFutures command_id }
          trace := Action.registerSlot command_id :: sent.1
          result := SendResult.response r
          allocatedId := command_id }
      | none =>
        { state := { st2 with
            pendingFutures := sinsert st2.pendingFutures command_id FutureState.done }
          trace := Action.registerSlot command_id ::
            (sent.1 ++ [Action.errorHandler ErrKind.connectionAborted])
          result := SendResult.noResponse
          allocatedId := command_id }

/-- Embeds get_event_subscription (session.py lines 232-233). -/
def get_event_subscription (st : SessionState) (event_subscription_id : Nat) :
    Option ScEventSubscription :=
  slookup st.eventSubscriptions event_subscription_id

/-- Embeds drop_event_subscription (session.py lines 236-237): Python del
on event_subscriptions_dict raises KeyError when the key is absent. -/
def drop_event_subscription (st : SessionState) (event_subscription_id : Nat) :
    Except PyErr SessionState :=
  match slookup st.eventSubscriptions event_subscription_id with
  | none => Except.error PyErr.keyError
  | some _ =>
    Except.ok { st with
      eventSubscriptions := serase st.eventSubscriptions event_subscription_id }

/-- Embeds set_event_subscription (session.py lines 240-243). -/
def set_event_subscription (st : SessionState) (ev : ScEventSubscription) :
    SessionState :=
  { st with eventSubscriptions := sinsert st.eventSubscriptions ev.id ev }

/-- Embeds close_connection (session.py lines 158-164): when a connection
handle is present, close it and flip the open flag false; when none is
present the guard fails and nothing at all happens (the AttributeError
branch is unreachable because the guard already filtered out None). -/
def close_connection (st : SessionState) : SessionState × List Action :=
  match st.connection with
  | some _ => ({ st with isOpen := false }, [Action.closeTransport])
  | none => (st, [])

/-- What the spawned connect task of establish_connection does before the
grace period elapses: websockets.connect succeeds and yields a fresh
connection handle, or raises a WebSocketException. -/
inductive ConnectOutcome where
  | success (handle : Nat)
  | failure
deriving DecidableEq, Repr

/-- Embeds establish_connection (session.py lines 133-155): the url is
recorded unconditionally and a connect task is spawned unconditionally (no
check of is_open).  On success the connection handle is replaced, the open
flag is set by _on_open, and after the grace period the post-reconnect
callback runs; on failure the error handler is invoked and the finally
block flips the open flag false. -/
def establish_connection (st : SessionState) (url : String)
    (co : ConnectOutcome) : SessionState × List Action :=
  let st0 := { st with url := some url }
  match co with
  | ConnectOutcome.success handle =>
    ({ st0 with connection := some handle, isOpen := true },
      [Action.connectAttempt url, Action.postReconnect])
  | ConnectOutcome.failure =>
    ({ st0 with isOpen := false },
      [Action.connectAttempt url, Action.errorHandler ErrKind.webSocketError])

/-- One send_message call in a sequence: its encoded length, transport
behaviour and awaited arrival. -/
structure SendInput where
  lenData : Nat
  att : Nat → AttemptResult
  arrival : Option Response

/-- Runs a sequence of send_message calls threading the session state,
collecting the allocated request identifiers in call order. -/
def run_sends (cfg : Config) : SessionState → List SendInput → List Nat × SessionState
  | st, [] => ([], st)
  | st, inp :: rest =>
    let out := send_message cfg st inp.lenData inp.att inp.arrival
    let res := run_sends cfg out.state rest
    (out.allocatedId :: res.1, res.2)

/-- Number of reconnect-callback invocations recorded in a trace. -/
def countReconnect (l : List Action) : Nat :=
  l.countP (fun a => match a with | Action.reconnect _ => true | _ => false)

/-- Tests whether an action is a callback invocation for the subscription
identifier S. -/
def isInvokeFor (S : Nat) : Action → Bool
  | Action.invokeCallback s _ _ => s == S
  | _ => false

theorem slookup_serase_ne {α : Type} (m : List (Nat × α)) (key k : Nat)
    (h : k ≠ key) : slookup (serase m key) k = slookup m k := by
  induction m with
  | nil => rfl
  | cons kv rest ih =>
    by_cases hk : kv.1 = key
    · have hne : ¬ key = k := fun hkk => h hkk.symm
      simp [serase, slookup, hk, hne, ih]
    · have hne : ¬ k = key := h
      by_cases h2 : kv.1 = k <;> simp [serase, slookup, hk, h2, hne, ih]

theorem serase_of_slookup_none {α : Type} (m : List (Nat × α)) (key : Nat)
    (h : slookup m key = none) : serase m key = m := by
  induction m with
  | nil => rfl
  | cons kv rest ih =>
    by_cases hk : kv.1 = key
    · simp [slookup, hk] at h
    · simp [slookup, hk] at h
      simp [serase, hk, ih h]

theorem emit_callback_state (st : SessionState) (event_id : Nat)
    (elems : List Nat) : (emit_callback st event_id elems).1 = st := by
  unfold emit_callback
  split
  · rfl
  · split <;> rfl

theorem send_message_allocatedId (cfg : Config) (st : SessionState)
    (lenData : Nat) (att : Nat → AttemptResult) (arrival : Option Response) :
    (send_message cfg st lenData att arrival).allocatedId = st.commandId + 1 := by
  simp only [send_message]
  split
  · rfl
  · split
    · rfl
    · split <;> rfl

theorem send_message_state_commandId (cfg : Config) (st : SessionState)
    (lenData : Nat) (att : Nat → AttemptResult) (arrival : Option Response) :
    (send_message cfg st lenData att arrival).state.commandId = st.commandId + 1 := by
  simp only [send_message]
  split
  · rfl
  · split
    · rfl
    · split <;> rfl

theorem sendLoop_count (hr : Bool) (att : Nat → AttemptResult) (retries : Nat) :
    ∀ d retry, retries - retry ≤ d →
      countReconnect (sendLoop hr att retries retry).1 ≤ retries - retry := by
  intro d
  induction d with
  | zero =>
    intro retry h0
    rw [sendLoop]
    split
    · simp [countReconnect]
    · simp [countReconnect]
    · split
      · omega
      · simp [countReconnect]
  | succ d ih =>
    intro retry h0
    rw [sendLoop]
    split
    · simp [countReconnect]
    · simp [countReconnect]
    · split
      · rename_i h
        have hc := ih (retry + 1) (by omega)
        by_cases hp : 0 < retry <;>
          simp [countReconnect, List.countP_append, List.countP_cons, hp] at hc ⊢ <;>
          omega
      · simp [countReconnect]

theorem run_sends_ids (cfg : Config) :
    ∀ (inputs : List SendInput) (st : SessionState),
      (run_sends cfg st inputs).1 =
        (List.range inputs.length).map (fun k => st.commandId + k + 1) := by
  intro inputs
  induction inputs with
  | nil => intro st; rfl
  | cons inp rest ih =>
    intro st
    simp only [run_sends, ih, send_message_allocatedId, send_message_state_commandId,
      List.length_cons, List.range_succ_eq_map, List.map_cons, List.map_map]
    congr 1
    apply List.map_congr_left
    intro a _
    simp [Function.comp]
    omega

/-- C1: for every send_message call whose encoded envelope is within the
configured payload byte ceiling, the freshly allocated request identifier
is st.commandId + 1, the very first action of the call is the registration
of the pending slot under that identifier, and every transport write in
the trace occurs strictly later, so no response bearing that identifier
can be processed before its slot is registered. -/
theorem send_message_registers_before_write (cfg : Config) (st : SessionState)
    (lenData : Nat) (att : Nat → AttemptResult) (arrival : Option Response)
    (h : lenData ≤ cfg.maxPayloadSize) :
    (send_message cfg st lenData att arrival).allocatedId = st.commandId + 1 ∧
    (send_message cfg st lenData att arrival).trace[0]? =
      some (Action.registerSlot (st.commandId + 1)) ∧
    ∀ i k, (send_message cfg st lenData att arrival).trace[i]? =
      some (Action.writeBytes k) → 0 < i := by
  have hgt : ¬ lenData > cfg.maxPayloadSize := by omega
  have htr : ∃ tail, (send_message cfg st lenData att arrival).trace =
      Action.registerSlot (st.commandId + 1) :: tail := by
    simp only [send_message, hgt, if_false]
    split
    · exact ⟨_, rfl⟩
    · split
      · exact ⟨_, rfl⟩
      · exact ⟨_, rfl⟩
  obtain ⟨tail, htr⟩ := htr
  refine ⟨send_message_allocatedId cfg st lenData att arrival, ?_, ?_⟩
  · rw [htr]
    simp
  · intro i k hik
    rw [htr] at hik
    cases i with
    | zero => simp at hik
    | succ n => omega

/-- Witness for C1 at a concrete call: payload of 10 bytes against a
ceiling of 100, a transport whose first write succeeds. -/
theorem send_message_registers_before_write_w :
    (send_message ⟨100, 2, true⟩ {} 10 (fun _ => AttemptResult.ok)
      none).trace[0]? = some (Action.registerSlot 1) :=
  (send_message_registers_before_write ⟨100, 2, true⟩ {} 10
    (fun _ => AttemptResult.ok) none (by decide)).2.1

/-- C2: for every send_message call whose encoded envelope exceeds the
configured payload byte ceiling, the call returns None, the trace is
exactly one error-handler invocation with the payload-oversize error (in
particular nothing is written to the transport and no reconnect runs),
and pending_futures is left exactly as it was, so the allocated
identifier is not leaked as pending. -/
theorem send_message_oversize_rejected (cfg : Config) (st : SessionState)
    (lenData : Nat) (att : Nat → AttemptResult) (arrival : Option Response)
    (h : cfg.maxPayloadSize < lenData) :
    (send_message cfg st lenData att arrival).result = SendResult.noResponse ∧
    (send_message cfg st lenData att arrival).trace =
      [Action.errorHandler ErrKind.payloadMaxSize] ∧
    (send_message cfg st lenData att arrival).state.pendingFutures =
      st.pendingFutures ∧
    (send_message cfg st lenData att arrival).allocatedId = st.commandId + 1 := by
  have hgt : lenData > cfg.maxPayloadSize := h
  simp [send_message, hgt]

/-- Witness for C2 at a concrete call: payload of 11 bytes against a
ceiling of 10. -/
theorem send_message_oversize_rejected_w :
    (send_message ⟨10, 2, true⟩ {} 11 (fun _ => AttemptResult.ok)
      none).result = SendResult.noResponse :=
  (send_message_oversize_rejected ⟨10, 2, true⟩ {} 11
    (fun _ => AttemptResult.ok) none (by decide)).1

/-- C3: an inbound non-event message whose id matches no pending slot, or
whose slot is already done, is silently dropped: _on_message returns
normally (no exception), performs no action at all (in particular it
resolves no slot and invokes no callback), and every other pending slot
is left exactly as it was. -/
theorem on_message_stray_dropped (st : SessionState) (resp : Response)
    (hev : resp.event = false)
    (h : slookup st.pendingFutures resp.id = none ∨
      slookup st.pendingFutures resp.id = some FutureState.done) :
    on_message st resp = Except.ok
      ({ st with pendingFutures := serase st.pendingFutures resp.id }, []) ∧
    ∀ k, k ≠ resp.id →
      slookup (serase st.pendingFutures resp.id) k = slookup st.pendingFutures k := by
  constructor
  · rcases h with h | h
    · simp [on_message, hev, h, serase_of_slookup_none _ _ h]
    · simp [on_message, hev, h]
  · intro k hk
    exact slookup_serase_ne _ _ _ hk

/-- Witness for C3 at a concrete state: the only slot for id 1 is already
done and the arriving non-event response carries id 1. -/
theorem on_message_stray_dropped_w :
    on_message { pendingFutures := [(1, FutureState.done)] } ⟨1, false, []⟩ =
      Except.ok ({}, []) :=
  (on_message_stray_dropped { pendingFutures := [(1, FutureState.done)] }
    ⟨1, false, []⟩ rfl (Or.inr rfl)).1

/-- C4: request identifiers allocated by send_message are strictly
monotonically increasing across any sequence of calls threading the
session state, including calls whose payload is rejected as oversize, so
no two calls ever receive the same identifier. -/
theorem run_sends_ids_pairwise (cfg : Config) (st : SessionState)
    (inputs : List SendInput) :
    ((run_sends cfg st inputs).1).Pairwise (· < ·) := by
  rw [run_sends_ids]
  rw [List.pairwise_map]
  exact (List.pairwise_lt_range inputs.length).imp (by intro a b hab; omega)

/-- C5: with every transport write failing with ConnectionClosed, a send
with retry count 2 produces exactly the trace: reconnect callback with
retry 0 (no delay sleep before the first retry), delay sleep, reconnect
callback with retry 1, and one error-handler invocation with the
connection-aborted error; in general the reconnect callback runs at most
the configured retry count times before the send is abandoned. -/
theorem sendLoop_retry_behaviour :
    ((sendLoop true (fun _ => AttemptResult.closed) 2 0).1 =
      [Action.reconnect 0, Action.sleepDelay, Action.reconnect 1,
        Action.errorHandler ErrKind.connectionAborted]) ∧
    ∀ (att : Nat → AttemptResult) (retries : Nat),
      countReconnect (sendLoop true att retries 0).1 ≤ retries := by
  constructor
  · simp [sendLoop]
  · intro att retries
    have hc := sendLoop_count true att retries retries 0 (by omega)
    simpa using hc

/-- C6: with a subscription registered under identifier S whose callback
is cb, running the read loop over any arrival-ordered list of inbound
envelopes invokes exactly the callback of that subscription for the
envelopes with event true and id S, once per such envelope, in arrival
order, each time with one ScAddr built from each element of the payload.
Dispatch is modelled in task-creation order, matching the single-threaded
cooperative scheduling of the read loop. -/
theorem read_loop_event_dispatch (S cb : Nat) (ev : ScEventSubscription)
    (hcb : ev.callback = some cb) :
    ∀ (msgs : List Response) (st : SessionState),
      slookup st.eventSubscriptions S = some ev →
      (read_loop st msgs).2.filter (isInvokeFor S) =
        (msgs.filter (fun m => m.event && (m.id == S))).map
          (fun m => Action.invokeCallback S cb (m.payload.map ScAddr.mk)) := by
  intro msgs
  induction msgs with
  | nil => intro st hS; rfl
  | cons r rest ih =>
    intro st hS
    by_cases he : r.event
    · have hio : on_message st r = Except.ok (emit_callback st r.id r.payload) := by
        simp [on_message, he]
      by_cases hid : r.id = S
      · have hemit : emit_callback st r.id r.payload =
            (st, [Action.invokeCallback S cb (r.payload.map ScAddr.mk)]) := by
          rw [hid]
          simp [emit_callback, hS, hcb]
        simp only [read_loop, hio, hemit]
        simp [List.filter_append, isInvokeFor, he, hid, ih st hS]
      · rcases hlook : slookup st.eventSubscriptions r.id with _ | ev2
        · have hemit : emit_callback st r.id r.payload = (st, []) := by
            simp [emit_callback, hlook]
          simp only [read_loop, hio, hemit]
          simp [he, hid, ih st hS]
        · rcases hcb2 : ev2.callback with _ | cb2
          · have hemit : emit_callback st r.id r.payload = (st, []) := by
              simp [emit_callback, hlook, hcb2]
            simp only [read_loop, hio, hemit]
            simp [he, hid, ih st hS]
          · have hemit : emit_callback st r.id r.payload =
                (st, [Action.invokeCallback r.id cb2 (r.payload.map ScAddr.mk)]) := by
              simp [emit_callback, hlook, hcb2]
            simp only [read_loop, hio, hemit]
            simp [List.filter_append, isInvokeFor, he, hid, ih st hS]
    · have he2 : r.event = false := by simpa using he
      rcases hm : slookup st.pendingFutures r.id with _ | fut
      · have hio : on_message st r = Except.ok (st, []) := by
          simp [on_message, he2, hm]
        simp only [read_loop, hio]
        simp [he2, ih st hS]
      · cases fut with
        | done =>
          have hio : on_message st r = Except.ok
              ({ st with pendingFutures := serase st.pendingFutures r.id }, []) := by
            simp [on_message, he2, hm]
          simp only [read_loop, hio]
          simp [he2]
          exact ih _ hS
        | pending =>
          have hio : on_message st r = Except.ok
              ({ st with pendingFutures := serase st.pendingFutures r.id },
                [Action.resolveSlot r.id]) := by
            simp [on_message, he2, hm, set_result]
          simp only [read_loop, hio]
          simp [he2, isInvokeFor]
          exact ih _ hS

/-- Witness for C6 at a concrete run: subscription 5 with callback 9,
three inbound events of which the first and third carry id 5. -/
theorem read_loop_event_dispatch_w :
    (read_loop { eventSubscriptions := [(5, { id := 5, callback := some 9 })] }
        [⟨5, true, [1, 2, 3]⟩, ⟨7, true, [4]⟩, ⟨5, true, [6, 6, 6]⟩]).2.filter
      (isInvokeFor 5) =
      [Action.invokeCallback 5 9 [⟨1⟩, ⟨2⟩, ⟨3⟩],
        Action.invokeCallback 5 9 [⟨6⟩, ⟨6⟩, ⟨6⟩]] :=
  read_loop_event_dispatch 5 9 { id := 5, callback := some 9 } rfl
    [⟨5, true, [1, 2, 3]⟩, ⟨7, true, [4]⟩, ⟨5, true, [6, 6, 6]⟩]
    { eventSubscriptions := [(5, { id := 5, callback := some 9 })] } rfl

/-- C7 counterexample: dropping subscription identifier 5 from an empty
registry is not a silent no-op; Python del raises KeyError, embedded as
the keyError outcome. -/
theorem drop_event_subscription_noop_cx :
    drop_event_subscription {} 5 = Except.error PyErr.keyError := rfl

/-- C7 amended: calling drop_event_subscription on an identifier that is
absent from the subscription registry raises KeyError instead of
completing as a no-op (the registry itself is not modified, since no new
state is produced). -/
theorem drop_event_subscription_absent_raises (st : SessionState) (i : Nat)
    (h : get_event_subscription st i = none) :
    drop_event_subscription st i = Except.error PyErr.keyError := by
  unfold get_event_subscription at h
  simp [drop_event_subscription, h]

/-- Witness for the amended C7 at a concrete state: identifier 7 is
absent from the empty registry. -/
theorem drop_event_subscription_absent_raises_w :
    drop_event_subscription {} 7 = Except.error PyErr.keyError :=
  drop_event_subscription_absent_raises {} 7 rfl

/-- C8 counterexample: from the prior state with the open flag set but no
transport connection handle, close_connection does nothing: is_connected
still returns true afterwards and no action (in particular no error
handler) is performed, because the guard on the connection handle fails. -/
theorem close_connection_missing_cx :
    is_connected (close_connection { isOpen := true }).1 = true ∧
    (close_connection { isOpen := true }).2 = [] :=
  ⟨rfl, rfl⟩

/-- C8 amended: after close_connection, is_connected returns false
whenever a transport connection handle was present; when no handle is
present, close_connection is a silent no-op that leaves the whole state
(including the open flag) unchanged and performs no action, rather than
signalling the error handler. -/
theorem close_connection_amended (st : SessionState) :
    (st.connection.isSome = true → is_connected (close_connection st).1 = false) ∧
    (st.connection = none → close_connection st = (st, [])) := by
  constructor
  · intro h
    rcases hc : st.connection with _ | c
    · rw [hc] at h
      simp at h
    · simp [close_connection, hc, is_connected]
  · intro h
    simp [close_connection, h]

/-- Witness for the amended C8 at a concrete state with a connection
handle present. -/
theorem close_connection_amended_w :
    is_connected (close_connection { isOpen := true, connection := some 0 }).1 =
      false :=
  (close_connection_amended { isOpen := true, connection := some 0 }).1 rfl

/-- C9 counterexample: calling establish_connection while the session is
already open (open flag true, connection handle 0) does touch the
transport layer: a new connect attempt is spawned and the connection
handle is replaced by the fresh handle 1. -/
theorem establish_connection_already_open_cx :
    (establish_connection { isOpen := true, connection := some 0 } "ws"
      (ConnectOutcome.success 1)).1.connection = some 1 ∧
    Action.connectAttempt "ws" ∈
      (establish_connection { isOpen := true, connection := some 0 } "ws"
        (ConnectOutcome.success 1)).2 :=
  ⟨rfl, by simp [establish_connection]⟩

/-- C9 amended: establish_connection records the url and unconditionally
initiates a new transport connection attempt, regardless of whether the
session is already open; when the attempt succeeds the existing connection
handle is replaced by the fresh one. -/
theorem establish_connection_always_connects (st : SessionState) (url : String)
    (co : ConnectOutcome) (k : Nat) :
    (establish_connection st url co).1.url = some url ∧
    Action.connectAttempt url ∈ (establish_connection st url co).2 ∧
    (establish_connection st url (ConnectOutcome.success k)).1.connection =
      some k := by
  refine ⟨?_, ?_, rfl⟩
  · unfold establish_connection
    cases co <;> rfl
  · unfold establish_connection
    cases co <;> simp

/-- C10: an inbound event envelope whose identifier is not registered, or
whose registered entry has no callback, makes _emit_callback return with
the state unchanged (registry and correlation table untouched) and no
action performed: no callback is invoked and nothing is raised. -/
theorem emit_callback_unmatched_noop (st : SessionState) (eid : Nat)
    (elems : List Nat)
    (h : get_event_subscription st eid = none ∨
      ∃ ev, get_event_subscription st eid = some ev ∧ ev.callback = none) :
    emit_callback st eid elems = (st, []) := by
  unfold get_event_subscription at h
  rcases h with h | ⟨ev, h, hcb⟩
  · simp [emit_callback, h]
  · simp [emit_callback, h, hcb]

/-- Witness for C10 at a concrete state: identifier 3 is absent from the
empty registry. -/
theorem emit_callback_unmatched_noop_w :
    emit_callback {} 3 [1, 2, 3] = ({}, []) :=
  emit_callback_unmatched_noop {} 3 [1, 2, 3] (Or.inl rfl)

end ScAsyncClient
